import Mathlib

/-!
Shallow embedding of the Data-Lake ETL pipeline (src/etl.py) and proofs of
the specification claims.

The source is a PySpark batch job.  Dataframes are embedded as Lean lists of
record structures; Spark operations become list operations:
  - `df.filter(p)`            -> `List.filter`
  - `df[...cols...]`          -> projection to a row structure
  - `.distinct()`             -> `distinct` (keep first occurrence of each tuple)
  - `.dropDuplicates([k])`    -> `dedupByKey` (keep first occurrence per key)
  - `df.join(s, cond, inner)` -> `joined` (all pairs satisfying the condition)
  - `monotonically_increasing_id` -> an arbitrary id generator `Nat -> Int`
    applied to the row index (that Spark id depends on partitioning is
    modelled by quantifying over the generator)
  - `spark.read.json(glob)`   -> an environment `Source` mapping glob strings
    to record lists
  - `write.partitionBy(...)`  -> a schema-level partition-column resolution
    check `resolvePartitionColumns` (Spark raises AnalysisException when a
    partition column is absent from the written schema)

Timestamps: the udf is `lambda t: datetime.fromtimestamp(t / 1000).isoformat()`
followed by a cast to TimestampType.  In Python 3, `t / 1000` is true (float)
division, `fromtimestamp` keeps the fractional part as microseconds, and the
cast parses them back, so the embedded `get_timestamp` keeps
`(ts mod 1000) * 1000` microseconds.  `fromtimestamp` uses the host local
timezone; the embedding fixes that zone to UTC (the claims under study are
zone-independent).  Calendar fields use the standard civil-from-days
algorithm, Spark `dayofweek` numbering (Sunday = 1) and ISO `weekofyear`.
-/

namespace DataLake

/-- A dataframe cell value, used to state schema-level claims about which
column (raw string vs cast integer) a projection carries. -/
inductive Value where
  | vint : Int → Value
  | vstr : String → Value
  | vnull : Value
deriving DecidableEq

/-- One song (catalog) record, with the fields etl.py references.  The
numeric payloads `artist_latitude`, `artist_longitude` and `duration` are
only projected and compared for equality, never computed with, so they are
embedded as `Int`. -/
structure SongRecord where
  song_id : String
  title : String
  artist_id : String
  artist_name : String
  artist_location : String
  artist_latitude : Int
  artist_longitude : Int
  year : Int
  duration : Int
deriving DecidableEq

/-- One activity (log) record, with the fields etl.py references.  `userId`
is a string in the raw JSON; `ts` is epoch milliseconds. -/
structure LogRecord where
  artist : String
  firstName : String
  gender : String
  lastName : String
  level : String
  location : String
  page : String
  sessionId : Int
  song : String
  ts : Int
  userAgent : String
  userId : String
deriving DecidableEq

/-- Spark `cast(IntegerType())` applied to a string column: parse an optional
sign followed by decimal digits, null (`none`) on failure. -/
def digitVal (c : Char) : Option Nat :=
  if ('0' ≤ c ∧ c ≤ '9') then some (c.toNat - '0'.toNat) else none

def parseNatDigitsAux : List Char → Nat → Option Nat
  | [], acc => some acc
  | c :: cs, acc =>
    match digitVal c with
    | some d => parseNatDigitsAux cs (acc * 10 + d)
    | none => none

def parseNatDigits : List Char → Option Nat
  | [] => none
  | cs => parseNatDigitsAux cs 0

def castToInt (s : String) : Option Int :=
  match s.toList with
  | '-' :: cs => (parseNatDigits cs).map (fun n => -(n : Int))
  | cs => (parseNatDigits cs).map (fun n => (n : Int))

/-- A timestamp value: seconds since the epoch plus microseconds. -/
structure Timestamp where
  sec : Int
  usec : Nat
deriving DecidableEq

/-- The `get_timestamp` udf of etl.py followed by the TimestampType cast:
`datetime.fromtimestamp(ts / 1000).isoformat()` keeps the fractional
milliseconds, so the result is floor seconds plus the millisecond remainder
as microseconds. -/
def get_timestamp (ts : Int) : Timestamp :=
  ⟨ts.fdiv 1000, ((ts.fmod 1000) * 1000).toNat⟩

def tsDays (t : Timestamp) : Int := t.sec.fdiv 86400

def tsSecOfDay (t : Timestamp) : Int := t.sec.fmod 86400

/-- Spark `hour`. -/
def tsHour (t : Timestamp) : Int := tsSecOfDay t / 3600

/-- Civil (proleptic Gregorian) date from days since 1970-01-01. -/
def civilFromDays (z0 : Int) : Int × Nat × Nat :=
  let z : Int := z0 + 719468
  let era : Int := z.fdiv 146097
  let doe : Nat := (z - era * 146097).toNat
  let yoe : Nat := (doe - doe / 1460 + doe / 36524 - doe / 146096) / 365
  let y : Int := (yoe : Int) + era * 400
  let doy : Nat := doe - (365 * yoe + yoe / 4 - yoe / 100)
  let mp : Nat := (5 * doy + 2) / 153
  let d : Nat := doy - (153 * mp + 2) / 5 + 1
  let m : Nat := if mp < 10 then mp + 3 else mp - 9
  (y + (if m ≤ 2 then 1 else 0), m, d)

/-- Days since 1970-01-01 of a civil (proleptic Gregorian) date. -/
def daysFromCivil (y0 : Int) (m d : Nat) : Int :=
  let y : Int := y0 - (if m ≤ 2 then 1 else 0)
  let era : Int := y.fdiv 400
  let yoe : Nat := (y - era * 400).toNat
  let mp : Nat := if 2 < m then m - 3 else m + 9
  let doy : Nat := (153 * mp + 2) / 5 + d - 1
  let doe : Nat := yoe * 365 + yoe / 4 - yoe / 100 + doy
  era * 146097 + (doe : Int) - 719468

/-- Spark `year`. -/
def tsYear (t : Timestamp) : Int := (civilFromDays (tsDays t)).1

/-- Spark `month`. -/
def tsMonth (t : Timestamp) : Nat := (civilFromDays (tsDays t)).2.1

/-- Spark `dayofmonth`. -/
def tsDay (t : Timestamp) : Nat := (civilFromDays (tsDays t)).2.2

/-- Spark `dayofweek`: 1 = Sunday, ..., 7 = Saturday (1970-01-01 was a
Thursday, day 5). -/
def sparkDayOfWeek (t : Timestamp) : Int := (tsDays t + 4).fmod 7 + 1

/-- ISO day of week: 1 = Monday, ..., 7 = Sunday. -/
def isoDayOfWeek (t : Timestamp) : Int := (tsDays t + 3).fmod 7 + 1

/-- Number of ISO weeks (52 or 53) in year `y`. -/
def weeksInISOYear (y : Int) : Int :=
  let p : Int → Int := fun yy => (yy + yy.fdiv 4 - yy.fdiv 100 + yy.fdiv 400).fmod 7
  if p y = 4 ∨ p (y - 1) = 3 then 53 else 52

/-- Spark `weekofyear` (ISO week number). -/
def weekofyear (t : Timestamp) : Int :=
  let y := tsYear t
  let doy : Int := tsDays t - daysFromCivil y 1 1 + 1
  let w : Int := (doy + 10 - isoDayOfWeek t).fdiv 7
  if w < 1 then weeksInISOYear (y - 1)
  else if weeksInISOYear y < w then 1
  else w

/-- Helper for `dedupByKey`: drop every element whose key was already
seen. -/
def dedupByKeyAux {α β : Type} [DecidableEq β] (key : α → β) :
    List α → List β → List α
  | [], _ => []
  | x :: xs, seen =>
    if key x ∈ seen then dedupByKeyAux key xs seen
    else x :: dedupByKeyAux key xs (key x :: seen)

/-- Spark `.dropDuplicates([key])`: keep one survivor per key (the first,
in this embedding). -/
def dedupByKey {α β : Type} [DecidableEq β] (key : α → β) (l : List α) :
    List α :=
  dedupByKeyAux key l []

/-- Spark `.distinct()`: deduplicate identical full tuples. -/
def distinct {α : Type} [DecidableEq α] (l : List α) : List α :=
  dedupByKey id l

/-- Spark `monotonically_increasing_id`, modelled as an arbitrary generator
applied to the row index. -/
def withIds {α : Type} (idGen : Nat → Int) : List α → Nat → List (α × Int)
  | [], _ => []
  | x :: xs, n => (x, idGen n) :: withIds idGen xs (n + 1)

/-! ## Record Source (read_song_data / read_log_data, etl.py lines 23-66)

The readers build one glob string (gated by the module-level `ALLOW_READ`
flag) and hand it to `spark.read.json`.  `spark.read.json` is embedded as an
environment mapping glob strings to record lists. -/

structure Source where
  songEnv : String → List SongRecord
  logEnv : String → List LogRecord

def song_data_path (allow_read : Bool) (input_data : String) : String :=
  if allow_read then input_data ++ "/song-data/A/A/*/*.json"
  else "data/song-data/A/A/*/*.json"

def log_data_path (allow_read : Bool) (input_data : String) : String :=
  if allow_read then input_data ++ "/log-data/A/A/*.json"
  else "data/log-data/*.json"

def read_song_data (src : Source) (allow_read : Bool) (input_data : String) :
    List SongRecord :=
  src.songEnv (song_data_path allow_read input_data)

def read_log_data (src : Source) (allow_read : Bool) (input_data : String) :
    List LogRecord :=
  src.logEnv (log_data_path allow_read input_data)

/-! ## Catalog transformer (process_song_data, etl.py lines 82-139) -/

/-- Projection `df["song_id", "title", "artist_id", "year", "duration"]`. -/
structure SongRow where
  song_id : String
  title : String
  artist_id : String
  year : Int
  duration : Int
deriving DecidableEq

def songRowOf (r : SongRecord) : SongRow :=
  ⟨r.song_id, r.title, r.artist_id, r.year, r.duration⟩

/-- etl.py lines 110-118: project then `dropDuplicates(["song_id"])`. -/
def songs_table (df : List SongRecord) : List SongRow :=
  dedupByKey (fun r => r.song_id) (df.map songRowOf)

/-- Projection `df["artist_id", "artist_name", "artist_location",
"artist_latitude", "artist_longitude"]`. -/
structure ArtistRow where
  artist_id : String
  artist_name : String
  artist_location : String
  artist_latitude : Int
  artist_longitude : Int
deriving DecidableEq

def artistRowOf (r : SongRecord) : ArtistRow :=
  ⟨r.artist_id, r.artist_name, r.artist_location, r.artist_latitude,
    r.artist_longitude⟩

/-- etl.py lines 127-133: project then `.distinct()`. -/
def artists_table (df : List SongRecord) : List ArtistRow :=
  distinct (df.map artistRowOf)

structure SongOutputs where
  songs : List SongRow
  artists : List ArtistRow
deriving DecidableEq

def process_song_data (src : Source) (allow_read : Bool) (input_data : String) :
    SongOutputs :=
  let df := read_song_data src allow_read input_data
  ⟨songs_table df, artists_table df⟩

/-! ## Activity transformer (process_log_data, etl.py lines 142-288) -/

/-- A log record after the `withColumn("user_id", userId.cast(IntegerType()))`
stage: the raw record plus the cast column. -/
structure LogWithUserId where
  raw : LogRecord
  user_id : Option Int
deriving DecidableEq

def addUserId (r : LogRecord) : LogWithUserId :=
  ⟨r, castToInt r.userId⟩

/-- etl.py lines 171-178: add the cast `user_id` column, then
`filter(df.page == "NextSong")`. -/
def filterNextSong (df : List LogRecord) : List LogWithUserId :=
  (df.map addUserId).filter (fun x => x.raw.page == "NextSong")

/-- Projection `df["firstName", "lastName", "gender", "level", "userId"]` —
the RAW `userId` string column, not the cast `user_id` column. -/
structure UserRow where
  firstName : String
  lastName : String
  gender : String
  level : String
  userId : String
deriving DecidableEq

def userRowOf (x : LogWithUserId) : UserRow :=
  ⟨x.raw.firstName, x.raw.lastName, x.raw.gender, x.raw.level, x.raw.userId⟩

/-- etl.py lines 181-187: project then `.distinct()`. -/
def user_table (df : List LogRecord) : List UserRow :=
  distinct ((filterNextSong df).map userRowOf)

/-- Projection `df["start_time", "hour", "day", "week", "month", "year",
"weekday"]`; each calendar column was added by `withColumn` as a function of
`start_time` (etl.py lines 220-238). -/
structure TimeRow where
  start_time : Timestamp
  hour : Int
  day : Int
  week : Int
  month : Int
  year : Int
  weekday : Int
deriving DecidableEq

def timeRowOf (t : Timestamp) : TimeRow :=
  ⟨t, tsHour t, (tsDay t : Int), weekofyear t, (tsMonth t : Int), tsYear t,
    sparkDayOfWeek t⟩

def logStartTime (x : LogWithUserId) : Timestamp :=
  get_timestamp x.raw.ts

/-- etl.py lines 240-248: project then `.distinct()`. -/
def time_table (df : List LogRecord) : List TimeRow :=
  distinct ((filterNextSong df).map (fun x => timeRowOf (logStartTime x)))

/-- etl.py lines 263-267: `df.join(song_df, song_df.artist_name == df.artist,
"inner")` — every (activity row, song row) pair whose artist strings are
equal. -/
def joined (df : List LogRecord) (song_df : List SongRecord) :
    List (LogWithUserId × SongRecord) :=
  (filterNextSong df).flatMap
    (fun l => (song_df.filter (fun s => s.artist_name == l.raw.artist)).map
      (fun s => (l, s)))

/-- Projection `["start_time", "userId", "level", "sessionId", "location",
"userAgent", "song_id", "artist_id"]` of the joined dataframe (etl.py lines
268-276).  Note the derived `year` and `month` columns are NOT selected. -/
structure SongplayRow where
  start_time : Timestamp
  userId : String
  level : String
  sessionId : Int
  location : String
  userAgent : String
  song_id : String
  artist_id : String
deriving DecidableEq

def songplayRowOf (p : LogWithUserId × SongRecord) : SongplayRow :=
  ⟨logStartTime p.1, p.1.raw.userId, p.1.raw.level, p.1.raw.sessionId,
    p.1.raw.location, p.1.raw.userAgent, p.2.song_id, p.2.artist_id⟩

/-- The songplays rows before `.distinct()`. -/
def songplays_rows (df : List LogRecord) (song_df : List SongRecord) :
    List SongplayRow :=
  (joined df song_df).map songplayRowOf

/-- etl.py lines 263-279: join, project, `.distinct()`, then
`withColumn("songplay_id", monotonically_increasing_id())`. -/
def songplays_table (idGen : Nat → Int) (df : List LogRecord)
    (song_df : List SongRecord) : List (SongplayRow × Int) :=
  withIds idGen (distinct (songplays_rows df song_df)) 0

structure LogOutputs where
  users : List UserRow
  time : List TimeRow
  songplays : List (SongplayRow × Int)
deriving DecidableEq

/-- etl.py lines 142-288 (transformation part): the log pipeline re-reads the
song data for the join. -/
def process_log_data (src : Source) (allow_read : Bool) (idGen : Nat → Int)
    (input_data : String) : LogOutputs :=
  let df := read_log_data src allow_read input_data
  let song_df := read_song_data src allow_read input_data
  ⟨user_table df, time_table df, songplays_table idGen df song_df⟩

/-! ## Write stage: partition-column resolution

`DataFrameWriter.partitionBy(cols).parquet(path)` raises an
AnalysisException when a partition column is missing from the written
schema.  The schemas below transcribe the projection lists of etl.py. -/

/-- The column names of the written songplays table: the eight projected
columns (etl.py lines 268-276) plus `songplay_id`. -/
def songplays_columns : List String :=
  ["start_time", "userId", "level", "sessionId", "location", "userAgent",
    "song_id", "artist_id", "songplay_id"]

/-- `partitionBy("year", "month")` of the songplays write (etl.py lines
283-286). -/
def songplays_partition_columns : List String :=
  ["year", "month"]

/-- The column names of the written time table (etl.py lines 240-248). -/
def time_columns : List String :=
  ["start_time", "hour", "day", "week", "month", "year", "weekday"]

/-- Partition-column resolution of a partitioned write: error on the first
partition column missing from the schema, as Spark does. -/
def resolvePartitionColumns (schema parts : List String) :
    Except String Unit :=
  match parts.find? (fun c => ¬ schema.contains c) with
  | some c => Except.error c
  | none => Except.ok ()

/-! ## Concrete sample records used as witnesses and counterexamples -/

/-- Interpretation of what the spec asks the user id column to hold: the cast
integer when the cast succeeds, null when it fails. -/
def valueOfCast : Option Int → Value
  | some n => Value.vint n
  | none => Value.vnull

def sampleSong : SongRecord :=
  ⟨"SOAAA1", "Track One", "AR1", "The Band", "NYC", 40, -74, 1999, 200⟩

/-- Scenario record for C4: item_id "S1". -/
def catRecS1a : SongRecord :=
  ⟨"S1", "Track", "AR1", "The Band", "NYC", 40, -74, 1999, 200⟩

/-- Scenario record for C4: same item_id "S1", differing only in duration. -/
def catRecS1b : SongRecord :=
  ⟨"S1", "Track", "AR1", "The Band", "NYC", 40, -74, 1999, 250⟩

def sampleLog : LogRecord :=
  ⟨"The Band", "Ada", "F", "Lovelace", "paid", "NYC", "NextSong", 42,
    "Track One", 1541990258796, "Mozilla", "26"⟩

/-- An activity record whose artist matches no catalog record. -/
def sampleLogNoMatch : LogRecord :=
  ⟨"Nobody", "Ada", "F", "Lovelace", "paid", "NYC", "NextSong", 42,
    "Track Two", 1541990258796, "Mozilla", "26"⟩

/-- An activity record with page "Home": filtered out entirely. -/
def sampleLogHome : LogRecord :=
  ⟨"Nobody", "Ada", "F", "Lovelace", "paid", "NYC", "Home", 42,
    "Track Two", 1541990258796, "Mozilla", "26"⟩

def sampleSource1 : Source :=
  ⟨fun p => if p = "elsewhere" then [sampleSong] else [],
    fun p => if p = "elsewhere" then [sampleLog] else []⟩

def sampleSource2 : Source :=
  ⟨fun _ => [], fun _ => []⟩

/-! ## General lemmas about the embedded Spark operations -/

theorem mem_of_mem_dedupByKeyAux {α β : Type} [DecidableEq β] {key : α → β} :
    ∀ {l : List α} {seen : List β} {a : α},
      a ∈ dedupByKeyAux key l seen → a ∈ l := by
  intro l
  induction l with
  | nil =>
    intro seen a h
    simp [dedupByKeyAux] at h
  | cons x xs ih =>
    intro seen a h
    rw [dedupByKeyAux] at h
    by_cases hx : key x ∈ seen
    · rw [if_pos hx] at h
      exact List.mem_cons_of_mem x (ih h)
    · rw [if_neg hx] at h
      rcases List.mem_cons.mp h with h1 | h2
      · exact h1 ▸ List.mem_cons_self x xs
      · exact List.mem_cons_of_mem x (ih h2)

theorem mem_of_mem_dedupByKey {α β : Type} [DecidableEq β] (key : α → β)
    (l : List α) (a : α) (h : a ∈ dedupByKey key l) : a ∈ l :=
  mem_of_mem_dedupByKeyAux h

theorem nodup_map_key_dedupByKeyAux {α β : Type} [DecidableEq β]
    (key : α → β) :
    ∀ (l : List α) (seen : List β),
      ((dedupByKeyAux key l seen).map key).Nodup ∧
        ∀ b ∈ (dedupByKeyAux key l seen).map key, b ∉ seen := by
  intro l
  induction l with
  | nil =>
    intro seen
    refine ⟨by simp [dedupByKeyAux], by simp [dedupByKeyAux]⟩
  | cons x xs ih =>
    intro seen
    rw [dedupByKeyAux]
    by_cases hx : key x ∈ seen
    · rw [if_pos hx]
      exact ih seen
    · rw [if_neg hx]
      rcases ih (key x :: seen) with ⟨hnd, hnotin⟩
      rw [List.map_cons]
      refine ⟨List.nodup_cons.mpr
        ⟨fun hmem => (hnotin _ hmem) (List.mem_cons_self _ _), hnd⟩, ?_⟩
      intro b hb
      rcases List.mem_cons.mp hb with h1 | h2
      · exact h1 ▸ hx
      · exact fun hbseen => hnotin b h2 (List.mem_cons_of_mem _ hbseen)

theorem nodup_map_key_dedupByKey {α β : Type} [DecidableEq β] (key : α → β)
    (l : List α) : ((dedupByKey key l).map key).Nodup :=
  (nodup_map_key_dedupByKeyAux key l []).1

theorem mem_map_key_dedupByKeyAux {α β : Type} [DecidableEq β]
    (key : α → β) :
    ∀ (l : List α) (seen : List β) (b : β),
      b ∈ (dedupByKeyAux key l seen).map key ↔ b ∈ l.map key ∧ b ∉ seen := by
  intro l
  induction l with
  | nil =>
    intro seen b
    simp [dedupByKeyAux]
  | cons x xs ih =>
    intro seen b
    rw [dedupByKeyAux]
    by_cases hx : key x ∈ seen
    · rw [if_pos hx, ih]
      simp only [List.map_cons, List.mem_cons]
      constructor
      · rintro ⟨h1, h2⟩
        exact ⟨Or.inr h1, h2⟩
      · rintro ⟨h1 | h1, h2⟩
        · exact absurd (h1 ▸ hx) h2
        · exact ⟨h1, h2⟩
    · rw [if_neg hx]
      rw [List.map_cons, List.map_cons]
      constructor
      · intro h
        rcases List.mem_cons.mp h with h1 | h1
        · exact ⟨List.mem_cons.mpr (Or.inl h1), h1 ▸ hx⟩
        · rcases (ih (key x :: seen) b).mp h1 with ⟨h2, h3⟩
          exact ⟨List.mem_cons.mpr (Or.inr h2),
            fun hb => h3 (List.mem_cons_of_mem _ hb)⟩
      · rintro ⟨h1, h2⟩
        by_cases hbx : b = key x
        · exact List.mem_cons.mpr (Or.inl hbx)
        · refine List.mem_cons.mpr (Or.inr ((ih (key x :: seen) b).mpr ⟨?_, ?_⟩))
          · rcases List.mem_cons.mp h1 with h3 | h3
            · exact absurd h3 hbx
            · exact h3
          · exact fun hb => (List.mem_cons.mp hb).elim hbx h2

theorem mem_map_key_dedupByKey {α β : Type} [DecidableEq β] (key : α → β)
    (l : List α) (b : β) :
    b ∈ (dedupByKey key l).map key ↔ b ∈ l.map key := by
  rw [dedupByKey, mem_map_key_dedupByKeyAux]
  simp

theorem dedupByKeyAux_congr {α β γ : Type} [DecidableEq β] [DecidableEq γ]
    {k1 : α → β} {k2 : α → γ} :
    ∀ (l : List α) (seen1 : List β) (seen2 : List γ),
      (∀ a ∈ l, ∀ b ∈ l, (k1 a = k1 b ↔ k2 a = k2 b)) →
      (∀ a ∈ l, (k1 a ∈ seen1 ↔ k2 a ∈ seen2)) →
      dedupByKeyAux k1 l seen1 = dedupByKeyAux k2 l seen2 := by
  intro l
  induction l with
  | nil =>
    intro _ _ _ _
    rfl
  | cons x xs ih =>
    intro seen1 seen2 hk hseen
    rw [dedupByKeyAux, dedupByKeyAux]
    have hx := hseen x (List.mem_cons_self x xs)
    have hkx : ∀ a ∈ xs, (k1 a = k1 x ↔ k2 a = k2 x) :=
      fun a ha => hk a (List.mem_cons_of_mem x ha) x (List.mem_cons_self x xs)
    have hkxs : ∀ a ∈ xs, ∀ b ∈ xs, (k1 a = k1 b ↔ k2 a = k2 b) :=
      fun a ha b hb =>
        hk a (List.mem_cons_of_mem x ha) b (List.mem_cons_of_mem x hb)
    by_cases h1 : k1 x ∈ seen1
    · rw [if_pos h1, if_pos (hx.mp h1)]
      exact ih seen1 seen2 hkxs
        (fun a ha => hseen a (List.mem_cons_of_mem x ha))
    · rw [if_neg h1, if_neg (fun h2 => h1 (hx.mpr h2))]
      refine congrArg (x :: ·) (ih (k1 x :: seen1) (k2 x :: seen2) hkxs ?_)
      intro a ha
      constructor
      · intro hmem
        rcases List.mem_cons.mp hmem with he | hs
        · exact List.mem_cons.mpr (Or.inl ((hkx a ha).mp he))
        · exact List.mem_cons.mpr
            (Or.inr ((hseen a (List.mem_cons_of_mem x ha)).mp hs))
      · intro hmem
        rcases List.mem_cons.mp hmem with he | hs
        · exact List.mem_cons.mpr (Or.inl ((hkx a ha).mpr he))
        · exact List.mem_cons.mpr
            (Or.inr ((hseen a (List.mem_cons_of_mem x ha)).mpr hs))

theorem dedupByKey_congr {α β γ : Type} [DecidableEq β] [DecidableEq γ]
    {k1 : α → β} {k2 : α → γ} (l : List α)
    (h : ∀ a ∈ l, ∀ b ∈ l, (k1 a = k1 b ↔ k2 a = k2 b)) :
    dedupByKey k1 l = dedupByKey k2 l :=
  dedupByKeyAux_congr l [] [] h (fun a _ => by simp)

theorem map_fst_withIds {α : Type} (idGen : Nat → Int) :
    ∀ (l : List α) (n : Nat), (withIds idGen l n).map Prod.fst = l
  | [], _ => rfl
  | x :: xs, n => by
    rw [withIds, List.map_cons, map_fst_withIds idGen xs (n + 1)]

theorem fst_mem_of_mem_withIds {α : Type} {idGen : Nat → Int} {l : List α}
    {n : Nat} {p : α × Int} (h : p ∈ withIds idGen l n) : p.1 ∈ l :=
  map_fst_withIds idGen l n ▸ List.mem_map_of_mem Prod.fst h

/-! ## Lemmas about the pipeline stages -/

theorem mem_filterNextSong {df : List LogRecord} {x : LogWithUserId} :
    x ∈ filterNextSong df ↔
      ∃ r ∈ df, r.page = "NextSong" ∧ x = addUserId r := by
  unfold filterNextSong
  rw [List.mem_filter]
  constructor
  · rintro ⟨hmem, hpage⟩
    rcases List.mem_map.mp hmem with ⟨r, hr, hx⟩
    refine ⟨r, hr, ?_, hx.symm⟩
    have : x.raw.page = "NextSong" := by
      exact of_decide_eq_true hpage
    rw [← hx] at this
    exact this
  · rintro ⟨r, hr, hpage, hx⟩
    refine ⟨hx ▸ List.mem_map_of_mem addUserId hr, ?_⟩
    subst hx
    exact decide_eq_true hpage

theorem mem_joined {df : List LogRecord} {song_df : List SongRecord}
    {l : LogWithUserId} {s : SongRecord} :
    (l, s) ∈ joined df song_df ↔
      l ∈ filterNextSong df ∧ s ∈ song_df ∧ s.artist_name = l.raw.artist := by
  unfold joined
  rw [List.mem_flatMap]
  constructor
  · rintro ⟨l0, hl0, hmem⟩
    rcases List.mem_map.mp hmem with ⟨s0, hs0, heq⟩
    have hl : l0 = l := congrArg Prod.fst heq
    have hs : s0 = s := congrArg Prod.snd heq
    subst hl
    subst hs
    exact ⟨hl0, (List.mem_filter.mp hs0).1,
      of_decide_eq_true (List.mem_filter.mp hs0).2⟩
  · rintro ⟨hl, hs, hname⟩
    exact ⟨l, hl, List.mem_map_of_mem (fun s => (l, s))
      (List.mem_filter.mpr ⟨hs, decide_eq_true hname⟩)⟩

theorem mem_of_mem_distinct {α : Type} [DecidableEq α] {l : List α} {a : α}
    (h : a ∈ distinct l) : a ∈ l :=
  mem_of_mem_dedupByKey id l a h

/-! ## Claim theorems -/

/-- C1: the claim says every projected Plays row carries the `year` and
`month` columns derived from start_time, so column resolution of the
partitioned write never fails.  In the code, the songplays projection (etl.py lines
268-276) selects only eight columns plus `songplay_id`, dropping the derived
`year` and `month`, so `partitionBy("year", "month")` fails column
resolution whenever the write is reached — the missing-partition-column
error branch is always taken, not unreachable. -/
theorem songplays_partition_resolution_fails :
    "year" ∉ songplays_columns ∧ "month" ∉ songplays_columns ∧
      resolvePartitionColumns songplays_columns songplays_partition_columns =
        Except.error "year" :=
  ⟨by decide, by decide, rfl⟩

/-- C2 counterexample: for timestamp_ms = 1541990258796 the derived
start_time is NOT truncated to whole seconds: the udf keeps the fractional
796 milliseconds (796000 microseconds), so the claim as stated fails at this
input. -/
theorem get_timestamp_keeps_millis :
    get_timestamp 1541990258796 ≠ Timestamp.mk 1541990258 0 ∧
      (get_timestamp 1541990258796).usec = 796000 := by
  decide

/-- C2 amended: for timestamp_ms = 1541990258796, start_time is whole
seconds 1541990258 PLUS the retained fractional 796 milliseconds, and the
derived hour, day, month, year, week and weekday fields are internally
consistent with that start_time: the date reconstructed from
(year, month, day) equals the date part of start_time. -/
theorem timestamp_decomposition_consistent :
    get_timestamp 1541990258796 = Timestamp.mk 1541990258 796000 ∧
      tsYear (get_timestamp 1541990258796) = 2018 ∧
      tsMonth (get_timestamp 1541990258796) = 11 ∧
      tsDay (get_timestamp 1541990258796) = 12 ∧
      tsHour (get_timestamp 1541990258796) = 2 ∧
      weekofyear (get_timestamp 1541990258796) = 46 ∧
      sparkDayOfWeek (get_timestamp 1541990258796) = 2 ∧
      daysFromCivil (tsYear (get_timestamp 1541990258796))
          (tsMonth (get_timestamp 1541990258796))
          (tsDay (get_timestamp 1541990258796)) =
        tsDays (get_timestamp 1541990258796) := by
  decide

/-- C4: for every catalog input, Items (songs_table) contains at most one
row per distinct item_id, and in the scenario of two catalog records with
item_id "S1" differing only in duration, exactly one "S1" row remains. -/
theorem songs_table_unique_song_id :
    (∀ df : List SongRecord,
      ((songs_table df).map (fun r => r.song_id)).Nodup) ∧
      ((songs_table [catRecS1a, catRecS1b]).filter
        (fun r => r.song_id == "S1")).length = 1 := by
  constructor
  · intro df
    exact nodup_map_key_dedupByKey (fun r => r.song_id) (df.map songRowOf)
  · decide

/-- C10: the catalog reader resolves only the glob
`<base>/song-data/A/A/*/*.json` and the activity reader only
`<base>/log-data/A/A/*.json` (with the fixed local fallback globs when
ALLOW_READ is false), and each transformer depends on the source environment
only through those globs. -/
theorem readers_fixed_globs (src1 src2 : Source) (ar : Bool) (b : String)
    (idGen : Nat → Int)
    (hs : src1.songEnv (song_data_path ar b) =
      src2.songEnv (song_data_path ar b))
    (hl : src1.logEnv (log_data_path ar b) =
      src2.logEnv (log_data_path ar b)) :
    song_data_path true b = b ++ "/song-data/A/A/*/*.json" ∧
      log_data_path true b = b ++ "/log-data/A/A/*.json" ∧
      song_data_path false b = "data/song-data/A/A/*/*.json" ∧
      log_data_path false b = "data/log-data/*.json" ∧
      process_song_data src1 ar b = process_song_data src2 ar b ∧
      process_log_data src1 ar idGen b = process_log_data src2 ar idGen b := by
  refine ⟨rfl, rfl, rfl, rfl, ?_, ?_⟩
  · unfold process_song_data read_song_data
    rw [hs]
  · unfold process_log_data read_log_data read_song_data
    rw [hs, hl]

/-- C10 witness: two source environments that agree on the two resolved
globs (both return no records there, while one of them holds records under a
different glob) yield identical pipeline outputs. -/
theorem readers_fixed_globs_witness :
    song_data_path true "s3a://bucket" =
        "s3a://bucket" ++ "/song-data/A/A/*/*.json" ∧
      log_data_path true "s3a://bucket" =
        "s3a://bucket" ++ "/log-data/A/A/*.json" ∧
      song_data_path false "s3a://bucket" = "data/song-data/A/A/*/*.json" ∧
      log_data_path false "s3a://bucket" = "data/log-data/*.json" ∧
      process_song_data sampleSource1 true "s3a://bucket" =
        process_song_data sampleSource2 true "s3a://bucket" ∧
      process_log_data sampleSource1 true (fun n => (n : Int)) "s3a://bucket" =
        process_log_data sampleSource2 true (fun n => (n : Int)) "s3a://bucket" :=
  readers_fixed_globs sampleSource1 sampleSource2 true "s3a://bucket"
    (fun n => (n : Int)) (by decide) (by decide)

/-- C3 counterexample: for a single NextSong record with the
integer-coercible userId "26", the Users table row carries the raw string
"26" in its user id column, not the cast integer 26 — the projection (etl.py
lines 181-187) selects the original `userId` column, so the claim as stated
fails. -/
theorem user_table_userId_not_cast :
    (∀ r ∈ [sampleLog], (castToInt r.userId).isSome = true) ∧
      ¬ (∀ row ∈ user_table [sampleLog],
          Value.vstr row.userId = valueOfCast (castToInt row.userId)) := by
  decide

/-- C3 amended: the filter stage does add a cast integer `user_id` column,
but the Users projection selects the original `userId` string column: every
Users row equals the projection of a filtered source record and carries its
raw userId, whose cast — held in the unprojected `user_id` column — is
exactly `castToInt` of that string. -/
theorem user_table_carries_raw_userId {df : List LogRecord} {row : UserRow}
    (h : row ∈ user_table df) :
    ∃ x ∈ filterNextSong df, row = userRowOf x ∧
      x.user_id = castToInt row.userId := by
  unfold user_table at h
  have hmem := mem_of_mem_distinct h
  rcases List.mem_map.mp hmem with ⟨x, hx, hrow⟩
  refine ⟨x, hx, hrow.symm, ?_⟩
  rcases mem_filterNextSong.mp hx with ⟨r, _, _, hx2⟩
  subst hx2
  rw [← hrow]
  rfl

/-- C3 amended witness: instantiation at the one-record activity input with
userId "26". -/
theorem user_table_carries_raw_userId_witness :
    (UserRow.mk "Ada" "Lovelace" "F" "paid" "26") ∈ user_table [sampleLog] ∧
      ∃ x ∈ filterNextSong [sampleLog],
        (UserRow.mk "Ada" "Lovelace" "F" "paid" "26") = userRowOf x ∧
          x.user_id = castToInt "26" :=
  ⟨by decide, user_table_carries_raw_userId (by decide)⟩

/-- C5: every row of the Users, Time and Plays tables is derived from a
source activity record whose page equals "NextSong"; records with any other
page value contribute to none of the three tables. -/
theorem downstream_rows_from_nextsong (df : List LogRecord)
    (song_df : List SongRecord) (idGen : Nat → Int) :
    (∀ row ∈ user_table df, ∃ r ∈ df, r.page = "NextSong" ∧
        row = userRowOf (addUserId r)) ∧
      (∀ row ∈ time_table df, ∃ r ∈ df, r.page = "NextSong" ∧
        row = timeRowOf (get_timestamp r.ts)) ∧
      (∀ p ∈ songplays_table idGen df song_df, ∃ r ∈ df, ∃ s ∈ song_df,
        r.page = "NextSong" ∧ p.1 = songplayRowOf (addUserId r, s)) := by
  refine ⟨?_, ?_, ?_⟩
  · intro row h
    rcases List.mem_map.mp (mem_of_mem_distinct h) with ⟨x, hx, hrow⟩
    rcases mem_filterNextSong.mp hx with ⟨r, hr, hpage, hx2⟩
    exact ⟨r, hr, hpage, by rw [← hrow, hx2]⟩
  · intro row h
    rcases List.mem_map.mp (mem_of_mem_distinct h) with ⟨x, hx, hrow⟩
    rcases mem_filterNextSong.mp hx with ⟨r, hr, hpage, hx2⟩
    refine ⟨r, hr, hpage, ?_⟩
    rw [← hrow, hx2]
    rfl
  · intro p hp
    have h1 : p.1 ∈ distinct (songplays_rows df song_df) :=
      fst_mem_of_mem_withIds hp
    rcases List.mem_map.mp (mem_of_mem_distinct h1) with ⟨⟨l0, s0⟩, hpair, hrow⟩
    rcases mem_joined.mp hpair with ⟨hl, hs, _⟩
    rcases mem_filterNextSong.mp hl with ⟨r, hr, hpage, hx2⟩
    refine ⟨r, hr, s0, hs, hpage, ?_⟩
    rw [← hrow, ← hx2]

/-- C6: the inner join holds a pair for exactly the set of (filtered
activity record, catalog record) pairs whose artist names are equal under
exact, case-sensitive string equality — no extra and no missing pairs — and
the pre-dedup Plays rows are precisely the projections of those pairs. -/
theorem join_exact_pairs (df : List LogRecord) (song_df : List SongRecord)
    (l : LogWithUserId) (s : SongRecord) :
    ((l, s) ∈ joined df song_df ↔
      l ∈ filterNextSong df ∧ s ∈ song_df ∧
        s.artist_name = l.raw.artist) ∧
      songplays_rows df song_df = (joined df song_df).map songplayRowOf :=
  ⟨mem_joined, rfl⟩

/-- C7: deduplicating the Time table by its full tuple equals deduplicating
by start_time alone (each calendar field is a function of start_time), so
Time has exactly one row per distinct start_time observed in the filtered
activity. -/
theorem time_table_one_row_per_start_time (df : List LogRecord) :
    time_table df =
      dedupByKey (fun r => r.start_time)
        ((filterNextSong df).map (fun x => timeRowOf (logStartTime x))) ∧
      ((time_table df).map (fun r => r.start_time)).Nodup ∧
      (∀ t : Timestamp,
        t ∈ (time_table df).map (fun r => r.start_time) ↔
          t ∈ (filterNextSong df).map logStartTime) := by
  have hkeys : ∀ a ∈ (filterNextSong df).map (fun x => timeRowOf (logStartTime x)),
      ∀ b ∈ (filterNextSong df).map (fun x => timeRowOf (logStartTime x)),
      (id a = id b ↔ a.start_time = b.start_time) := by
    intro a ha b hb
    rcases List.mem_map.mp ha with ⟨x, _, hax⟩
    rcases List.mem_map.mp hb with ⟨y, _, hby⟩
    constructor
    · exact fun h => congrArg TimeRow.start_time h
    · intro h
      rw [← hax, ← hby]
      rw [← hax, ← hby] at h
      exact congrArg timeRowOf h
  have heq : time_table df =
      dedupByKey (fun r => r.start_time)
        ((filterNextSong df).map (fun x => timeRowOf (logStartTime x))) :=
    dedupByKey_congr _ hkeys
  refine ⟨heq, ?_, ?_⟩
  · rw [heq]
    exact nodup_map_key_dedupByKey (fun r : TimeRow => r.start_time) _
  · intro t
    rw [heq, mem_map_key_dedupByKey, List.map_map]
    rfl

/-- C8: empty results at filter or join stages are values, not errors: an
activity row whose artist matches no catalog record contributes no pair to
the join, an empty catalog gives an empty join, and an empty filtered set
propagates to empty Users, Time and Plays tables. -/
theorem empty_results_propagate (df : List LogRecord)
    (song_df : List SongRecord) (idGen : Nat → Int) (l : LogWithUserId)
    (h : ∀ s ∈ song_df, ¬ s.artist_name = l.raw.artist) :
    (∀ s : SongRecord, (l, s) ∉ joined df song_df) ∧
      joined df [] = [] ∧
      (filterNextSong df = [] →
        user_table df = [] ∧ time_table df = [] ∧
          songplays_table idGen df song_df = []) := by
  refine ⟨?_, ?_, ?_⟩
  · intro s hmem
    rcases mem_joined.mp hmem with ⟨_, hs, hname⟩
    exact h s hs hname
  · simp [joined]
  · intro hfe
    refine ⟨?_, ?_, ?_⟩
    · simp [user_table, hfe, distinct, dedupByKey, dedupByKeyAux]
    · simp [time_table, hfe, distinct, dedupByKey, dedupByKeyAux]
    · simp [songplays_table, songplays_rows, joined, hfe, distinct,
        dedupByKey, dedupByKeyAux, withIds]

/-- C8 witness: the one-record activity input whose artist "Nobody" matches
no record of the one-song catalog contributes no join pair, and the input
whose only record has page "Home" (empty after filtering) yields empty
Users, Time and Plays tables. -/
theorem empty_results_propagate_witness :
    (addUserId sampleLogNoMatch, sampleSong) ∉
        joined [sampleLogNoMatch] [sampleSong] ∧
      joined [sampleLogNoMatch] [] = [] ∧
      user_table [sampleLogHome] = [] ∧
      time_table [sampleLogHome] = [] ∧
      songplays_table (fun n => (n : Int)) [sampleLogHome] [sampleSong] = [] := by
  have h1 := empty_results_propagate [sampleLogNoMatch] [sampleSong]
    (fun n => (n : Int)) (addUserId sampleLogNoMatch) (by decide)
  have h2 := empty_results_propagate [sampleLogHome] [sampleSong]
    (fun n => (n : Int)) (addUserId sampleLogHome) (by decide)
  rcases (h2.2.2 (by decide)) with ⟨hu, ht, hp⟩
  exact ⟨h1.1 sampleSong, h1.2.1, hu, ht, hp⟩

/-- C9: running the whole pipeline twice on identical raw inputs yields the
same Items, Creators, Users and Time tables, and the Plays tables agree once
the run-local songplay_id is erased, for any two id generators. -/
theorem pipeline_deterministic_mod_play_id (src : Source) (ar : Bool)
    (input_data : String) (g1 g2 : Nat → Int) :
    process_song_data src ar input_data = process_song_data src ar input_data ∧
      (process_log_data src ar g1 input_data).users =
        (process_log_data src ar g2 input_data).users ∧
      (process_log_data src ar g1 input_data).time =
        (process_log_data src ar g2 input_data).time ∧
      ((process_log_data src ar g1 input_data).songplays.map Prod.fst) =
        ((process_log_data src ar g2 input_data).songplays.map Prod.fst) := by
  refine ⟨rfl, rfl, rfl, ?_⟩
  show (withIds g1 _ 0).map Prod.fst = (withIds g2 _ 0).map Prod.fst
  rw [map_fst_withIds, map_fst_withIds]

end DataLake
